import Mathlib

/-!
Verification development for the log-correlation module (`log.py`) of a
cluster-benchmark harness.  The two line-oriented parsers `load_app_data`
and `load_worker_data` are embedded shallowly:

* a log file is a `List String` of raw lines (each line may keep its
  trailing newline, as produced by iterating over a Python file object);
* Python `str.split(sep)` and the other string primitives are implemented
  structurally over the character list (`pySplitSp`, `pySplit4`,
  `removeChar`, `pyRstrip`, ...), with Python's single-separator split
  semantics (empty pieces are kept), so every definition evaluates;
* Python numbers are modelled exactly: `int` as `Int`, `float` as `Rat`
  (the claims under study only involve decimal literals and arithmetic
  that is exact at this granularity);
* fallible operations (indexing, dict lookup, numeric parsing) run in
  `Except PyErr`, mirroring Python's `IndexError` / `KeyError` /
  `ValueError` and the fact that an uncaught exception aborts the scan;
* Python dicts are insertion-ordered association lists (`dSet` updates in
  place or appends, `dGet` raises `KeyError` when the key is absent);
* `string_to_datetime` (from `util.utils`, not part of the given sources)
  and `datetime.strptime` are modelled from the spec, see their doc
  comments.
-/

attribute [local semireducible] Rat.add Rat.mul Rat.inv Rat.sub Rat.ofScientific

/-- The Python exception kinds that the embedded code can raise. -/
inductive PyErr : Type where
  | keyError : PyErr
  | valueError : PyErr
  | indexError : PyErr
  | typeError : PyErr
deriving DecidableEq, Repr

instance {ε α : Type} [DecidableEq ε] [DecidableEq α] : DecidableEq (Except ε α) := fun a b =>
  match a, b with
  | .ok x, .ok y =>
    if h : x = y then isTrue (by rw [h]) else isFalse (by intro hh; cases hh; exact h rfl)
  | .error x, .error y =>
    if h : x = y then isTrue (by rw [h]) else isFalse (by intro hh; cases hh; exact h rfl)
  | .ok _, .error _ => isFalse (by intro hh; cases hh)
  | .error _, .ok _ => isFalse (by intro hh; cases hh)

/-- Python list indexing `l[i]`, including negative indices; raises
`IndexError` when out of range. -/
def pyGet {α : Type} (l : List α) (i : Int) : Except PyErr α :=
  if i < 0 then
    if 0 ≤ (l.length : Int) + i then
      match l.get? ((l.length : Int) + i).toNat with
      | some a => .ok a
      | none => .error .indexError
    else .error .indexError
  else
    match l.get? i.toNat with
    | some a => .ok a
    | none => .error .indexError

/-- Python dict lookup `d[k]`; raises `KeyError` when the key is absent. -/
def dGet {K V : Type} [DecidableEq K] : List (K × V) → K → Except PyErr V
  | [], _ => .error .keyError
  | (k', v') :: t, k => if k' = k then .ok v' else dGet t k

/-- Python dict assignment `d[k] = v`: updates the existing binding in
place (keeping its position) or appends a new one (insertion order). -/
def dSet {K V : Type} [DecidableEq K] : List (K × V) → K → V → List (K × V)
  | [], k, v => [(k, v)]
  | (k', v') :: t, k, v => if k' = k then (k, v) :: t else (k', v') :: dSet t k v

/-- Python `try: x except (KeyError, ValueError): handler`. -/
def pyTry {α : Type} (x : Except PyErr α) (handler : Except PyErr α) : Except PyErr α :=
  match x with
  | .ok a => .ok a
  | .error .keyError => handler
  | .error .valueError => handler
  | .error e => .error e

/-- Lift an optional dict field (`Option`-valued record field standing for
a possibly-missing Python dict key) into `Except`. -/
def optKey {α : Type} : Option α → Except PyErr α
  | some a => .ok a
  | none => .error .keyError

/-- Split a character list at every occurrence of the separator character,
keeping empty pieces — the semantics of Python `s.split(c)` for a
one-character separator. -/
def splitOnChar (c : Char) : List Char → List (List Char)
  | [] => [[]]
  | x :: xs =>
    if x = c then [] :: splitOnChar c xs
    else
      match splitOnChar c xs with
      | [] => [[x]]
      | r :: rs => (x :: r) :: rs

/-- Split a character list at every (non-overlapping, leftmost-first)
occurrence of four consecutive spaces — the semantics of Python
`s.split("    ")`. -/
def split4SpacesAux : List Char → List (List Char)
  | ' ' :: ' ' :: ' ' :: ' ' :: rest => [] :: split4SpacesAux rest
  | x :: xs =>
    match split4SpacesAux xs with
    | [] => [[x]]
    | r :: rs => (x :: r) :: rs
  | [] => [[]]

/-- Python `s.split(" ")`. -/
def pySplitSp (s : String) : List String := (splitOnChar ' ' s.data).map String.mk

/-- Python `s.split(":")`. -/
def pySplitColon (s : String) : List String := (splitOnChar ':' s.data).map String.mk

/-- Python `s.split("    ")` (four spaces, the telemetry column break). -/
def pySplit4 (s : String) : List String := (split4SpacesAux s.data).map String.mk

/-- Python `s.replace(c, "")` for a one-character pattern: every
occurrence is removed. -/
def removeChar (c : Char) (s : String) : String := ⟨s.data.filter (fun x => x ≠ c)⟩

/-- Python `s.rstrip()`: drop trailing whitespace. -/
def pyRstrip (s : String) : String := ⟨(s.data.reverse.dropWhile Char.isWhitespace).reverse⟩

/-- Surrounding-whitespace strip, as `int()`/`float()` allow. -/
def pyStrip (s : String) : String :=
  ⟨((s.data.dropWhile Char.isWhitespace).reverse.dropWhile Char.isWhitespace).reverse⟩

/-- Value of a nonempty digit string. -/
def digitsVal : List Char → Option Nat
  | [] => none
  | cs =>
    cs.foldl
      (fun acc c =>
        acc.bind fun n => if c.isDigit then some (n * 10 + (c.toNat - 48)) else none)
      (some 0)

/-- Python `int(s)` on a string: optional sign around a digit string,
surrounding whitespace allowed; `none` models `ValueError`. -/
def pyIntOpt (s : String) : Option Int :=
  match (pyStrip s).data with
  | '-' :: cs => (digitsVal cs).map (fun n => -(n : Int))
  | '+' :: cs => (digitsVal cs).map (fun n => (n : Int))
  | cs => (digitsVal cs).map (fun n => (n : Int))

/-- Python `int(s)` in the `Except` monad. -/
def pyInt (s : String) : Except PyErr Int :=
  match pyIntOpt s with
  | some n => .ok n
  | none => .error .valueError

/-- Unsigned decimal literal `digits[.digits]` as an exact rational. -/
def floatCore (cs : List Char) : Option Rat :=
  let ip := cs.takeWhile Char.isDigit
  let rest := cs.dropWhile Char.isDigit
  match rest with
  | [] => (digitsVal ip).map (fun n => (n : Rat))
  | '.' :: fp =>
    if fp.all Char.isDigit ∧ ¬(ip = [] ∧ fp = []) then
      some (((ip.foldl (fun n c => n * 10 + (c.toNat - 48)) 0 : Nat) : Rat)
        + ((fp.foldl (fun n c => n * 10 + (c.toNat - 48)) 0 : Nat) : Rat) / (10 : Rat) ^ fp.length)
    else none
  | _ => none

/-- Python `float(s)` on a string (decimal literals, optional sign,
surrounding whitespace allowed; exponent forms are not needed by any
claim); the value is the exact rational the literal denotes. -/
def pyFloatOpt (s : String) : Option Rat :=
  match (pyStrip s).data with
  | '-' :: cs => (floatCore cs).map (fun q => -q)
  | '+' :: cs => floatCore cs
  | cs => floatCore cs

/-- Python `float(s)` in the `Except` monad (`ValueError` on failure). -/
def pyFloat (s : String) : Except PyErr Rat :=
  match pyFloatOpt s with
  | some q => .ok q
  | none => .error .valueError

/-- Python `int(x)` on a float: truncation toward zero. -/
def pyTrunc (q : Rat) : Int :=
  if q < 0 then -((-q).floor) else q.floor

/-- Python `'{0:.2f}'.format(x)` followed by `float(...)`: rounding to two
decimal digits (ties to even, as in float formatting). -/
def round2 (q : Rat) : Rat :=
  let x := q * 100
  let n : Int := if x - x.floor = 1 / 2 then (if x.floor % 2 = 0 then x.floor else x.floor + 1) else round x
  (n : Rat) / 100

/-- Timestamps, one comparable linear representation for all log sources
(the unit is milliseconds, matching `timedelta(milliseconds=...)`). -/
abbrev Time := Rat

/-- Modelled from the spec: `string_to_datetime` (from `util.utils`, whose
source is not included) is the Timestamp Normalizer, converting a textual
timestamp into the single comparable time representation.  It is a
deterministic injective encoding of the text. -/
def string_to_datetime (s : String) : Time :=
  ((s.data.foldl (fun a c => a * 256 + c.toNat) 0 : Nat) : Rat)

/-- Modelled from the spec: `datetime.strptime(s, '%I:%M:%S %p')` (Python
standard library, not included in the sources) parses a wall-clock
time-of-day `"HH:MM:SS AM/PM"`, raising `ValueError` on any mismatch; the
`.replace(year=2016)` pins the date, so the result is determined by the
time-of-day (here encoded as milliseconds since midnight). -/
def pyStrptime (s : String) : Except PyErr Time :=
  match pySplitSp s with
  | [hms, ap] =>
    if ap = "AM" ∨ ap = "PM" then
      match pySplitColon hms with
      | [h, m, sec] =>
        match pyIntOpt h, pyIntOpt m, pyIntOpt sec with
        | some hv, some mv, some sv =>
          if 1 ≤ hv ∧ hv ≤ 12 ∧ 0 ≤ mv ∧ mv ≤ 59 ∧ 0 ≤ sv ∧ sv ≤ 59 then
            .ok ((((hv % 12 + (if ap = "PM" then 12 else 0)) * 3600 + mv * 60 + sv) * 1000 : Int) : Rat)
          else .error .valueError
        | _, _, _ => .error .valueError
      | _ => .error .valueError
    else .error .valueError
  | _ => .error .valueError

/-- One per-stage record of `app_info` (`log.py` builds it as a dict whose
keys `"tasks"`, `"start"`, `"deadline"`, `"end"`, `"tasktimestamps"`
appear dynamically; a missing key is `none`). -/
structure StageRec : Type where
  tasks : Option Int := none
  start : Option Time := none
  deadline : Option Time := none
  end_ : Option Time := none
  tasktimestamps : Option (List Time) := none
deriving DecidableEq, Repr

/-- The per-application plot series of `dict_to_plot` (`log.py` keeps the
source's spelling `dealineTimeStages`); whenever an entry is created all
three lists are assigned at once, so they are plain fields. -/
structure PlotRec : Type where
  dealineTimeStages : List Time := []
  startTimeStages : List Time := []
  finishTimeStages : List Time := []
deriving DecidableEq, Repr

/-- `app_info`: application id → stage id → stage record. -/
abbrev AppInfo := List (String × List (Int × StageRec))

/-- The mutable state threaded through the `load_app_data` line loop. -/
structure AppState : Type where
  app_info : AppInfo := []
  dict_to_plot : List (String × PlotRec) := []
  app_id : String := ""
deriving DecidableEq, Repr

/-- `log.py` lines 133-139, the `try` body: `app_info[app_id][int(float(
line[9]))]["tasktimestamps"].append(string_to_datetime(line[1]))`, in
Python's evaluation order (object chain, then index, then argument). -/
def taskFinTry (ai : AppInfo) (app_id : String) (toks : List String) : Except PyErr AppInfo := do
  let am ← dGet ai app_id
  let t9 ← pyGet toks 9
  let f ← pyFloat t9
  let sr ← dGet am (pyTrunc f)
  let tl ← optKey sr.tasktimestamps
  let t1 ← pyGet toks 1
  pure (dSet ai app_id (dSet am (pyTrunc f)
    { sr with tasktimestamps := some (tl ++ [string_to_datetime t1]) }))

/-- `log.py` lines 137-139, the `except (KeyError, ValueError)` handler:
sets `tasktimestamps` to `[]` and appends; its own lookups re-raise (they
are no longer guarded), so it only succeeds when the stage record exists
and merely lacked the `tasktimestamps` key. -/
def taskFinExc (ai : AppInfo) (app_id : String) (toks : List String) : Except PyErr AppInfo := do
  let am ← dGet ai app_id
  let t9 ← pyGet toks 9
  let f ← pyFloat t9
  let sr ← dGet am (pyTrunc f)
  let t1 ← pyGet toks 1
  pure (dSet ai app_id (dSet am (pyTrunc f)
    { sr with tasktimestamps := some [string_to_datetime t1] }))

/-- Task-finished branch (`log.py` lines 132-139). -/
def taskFin (st : AppState) (toks : List String) : Except PyErr AppState :=
  (pyTry (taskFinTry st.app_info st.app_id toks) (taskFinExc st.app_info st.app_id toks)).map
    (fun ai => { st with app_info := ai })

/-- Registration branch (`log.py` lines 140-146): the last token,
right-stripped, becomes the current application; fresh empty stage map
and plot series are installed for it. -/
def regBranch (st : AppState) (toks : List String) : Except PyErr AppState := do
  let last ← pyGet toks (-1)
  let id := pyRstrip last
  pure { app_info := dSet st.app_info id [],
         dict_to_plot := dSet st.dict_to_plot id {},
         app_id := id }

/-- Stage-submission branch (`log.py` lines 148-151): `stage_id =
int(line[10])`; `app_info[app_id][stage_id] = {}`; then
`...["tasks"] = int(line[5])`. -/
def submitInfo (ai : AppInfo) (app_id : String) (toks : List String) : Except PyErr AppInfo := do
  let t10 ← pyGet toks 10
  let sid ← pyInt t10
  let am ← dGet ai app_id
  let am1 := dSet am sid {}
  let t5 ← pyGet toks 5
  let n ← pyInt t5
  pure (dSet ai app_id (dSet am1 sid { tasks := some n }))

/-- Stage-submission branch acting on the whole state. -/
def submitBranch (st : AppState) (toks : List String) : Except PyErr AppState :=
  (submitInfo st.app_info st.app_id toks).map (fun ai => { st with app_info := ai })

/-- Stage-finished branch (`log.py` lines 152-161): sets the stage `end`
and, only when strictly more starts than finishes are on record for the
current application, appends that end time to `finishTimeStages`. -/
def stageFin (st : AppState) (toks : List String) : Except PyErr AppState :=
  if st.app_id = "" then pure st
  else do
    let t5 ← pyGet toks 5
    let sid ← pyInt t5
    let t1 ← pyGet toks 1
    let am ← dGet st.app_info st.app_id
    let sr ← dGet am sid
    let p ← dGet st.dict_to_plot st.app_id
    if p.finishTimeStages.length < p.startTimeStages.length then
      pure { st with
             app_info := dSet st.app_info st.app_id
               (dSet am sid { sr with end_ := some (string_to_datetime t1) }),
             dict_to_plot := dSet st.dict_to_plot st.app_id
               { p with finishTimeStages := p.finishTimeStages ++ [string_to_datetime t1] } }
    else
      pure { st with
             app_info := dSet st.app_info st.app_id
               (dSet am sid { sr with end_ := some (string_to_datetime t1) }) }

/-- Controller INIT branch (`log.py` lines 163-179): guarded by
`len(dealineTimeStages) < len(finishTimeStages) + 1`; records the stage
start, appends it to `startTimeStages`, then derives the deadline from
the declared duration in milliseconds and appends it to
`dealineTimeStages`. -/
def ctrlInit (st : AppState) (toks : List String) : Except PyErr AppState := do
  let p ← dGet st.dict_to_plot st.app_id
  if p.dealineTimeStages.length < p.finishTimeStages.length + 1 then do
    let t12 ← pyGet toks 12
    let sid ← pyInt (removeChar ',' t12)
    let t1 ← pyGet toks 1
    let am ← dGet st.app_info st.app_id
    let sr ← dGet am sid
    let t16 ← pyGet toks 16
    let dms ← pyFloat (removeChar ',' t16)
    let lastStart ← pyGet (p.startTimeStages ++ [string_to_datetime t1]) (-1)
    pure { st with
           app_info := dSet st.app_info st.app_id
             (dSet am sid { sr with start := some (string_to_datetime t1),
                                    deadline := some (lastStart + dms) }),
           dict_to_plot := dSet st.dict_to_plot st.app_id
             { p with startTimeStages := p.startTimeStages ++ [string_to_datetime t1],
                      dealineTimeStages := p.dealineTimeStages ++ [lastStart + dms] } }
  else pure st

/-- Controller hand-off branch (`log.py` lines 180-187): when the last
token (newline-stripped) differs from the current application id, switch
to it and install fresh empty plot series for it — unconditionally, with
no check whether series already existed. -/
def handoff (st : AppState) (toks : List String) : Except PyErr AppState := do
  let last ← pyGet toks (-1)
  if st.app_id ≠ removeChar '\n' last then
    pure { st with app_id := removeChar '\n' last,
                   dict_to_plot := dSet st.dict_to_plot (removeChar '\n' last) {} }
  else pure st

/-- The `elif line[-4] == "finished"` arm of the DAGScheduler branch. -/
def dagFin (st : AppState) (toks : List String) : Except PyErr AppState := do
  let tm4 ← pyGet toks (-4)
  if tm4 = "finished" then stageFin st toks else pure st

/-- One iteration of the `load_app_data` line loop (`log.py` lines
129-187) on the token list: require more than 3 tokens, dispatch on the
4th token and its companions in the source's order, with Python's
short-circuit evaluation of the index accesses. -/
def stepAppT (st : AppState) (toks : List String) : Except PyErr AppState :=
  if 3 < toks.length then do
    let t3 ← pyGet toks 3
    if t3 = "TaskSetManager:" then do
      let t4 ← pyGet toks 4
      if t4 = "Finished" then taskFin st toks else pure st
    else if t3 = "StandaloneSchedulerBackend:" then do
      let t4 ← pyGet toks 4
      if t4 = "Connected" then regBranch st toks else pure st
    else if t3 = "DAGScheduler:" then do
      let t4 ← pyGet toks 4
      if t4 = "Submitting" then do
        let t6 ← pyGet toks 6
        if t6 = "missing" then submitBranch st toks else dagFin st toks
      else dagFin st toks
    else if t3 = "ControllerJob:" then do
      let t5 ← pyGet toks 5
      if t5 = "INIT" then ctrlInit st toks
      else if t5 = "NEEDED" then do
        let t4 ← pyGet toks 4
        if t4 = "SEND" then handoff st toks else pure st
      else pure st
    else pure st
  else pure st

/-- One iteration of the `load_app_data` line loop on a raw line:
`line = line.split(" ")` and then the dispatch of `stepAppT`. -/
def stepApp (st : AppState) (line : String) : Except PyErr AppState :=
  stepAppT st (pySplitSp line)

/-- The whole `load_app_data` scan, with the full final parser state. -/
def loadAppDataState (lines : List String) : Except PyErr AppState :=
  List.foldlM stepApp {} lines

/-- `load_app_data` (`log.py` lines 116-188): runs the scan and `return
app_info` — only the `app_info` dictionary reaches the caller;
`dict_to_plot` is dropped at function exit. -/
def load_app_data (lines : List String) : Except PyErr AppInfo :=
  (loadAppDataState lines).map AppState.app_info

/-- One per-(application, stage) record of the worker dictionary (the four
series `"cpu"`, `"time"`, `"sp_real"`, `"sp"` are always created together,
`log.py` lines 214-218). -/
structure WStage : Type where
  cpu : List Rat := []
  time : List Time := []
  sp_real : List Rat := []
  sp : List Rat := []
deriving DecidableEq, Repr

/-- A top-level value of `worker_dict`: either one of the two worker-global
series (`"cpu_real"`, `"time_cpu"`, both lists of rationals since `Time =
Rat`) or a per-application stage map. -/
inductive WEntry : Type where
  | series (l : List Rat) : WEntry
  | appm (m : List (Int × WStage)) : WEntry
deriving DecidableEq, Repr

/-- Python `len` on a `worker_dict` top-level value. -/
def pyLen : WEntry → Nat
  | .series l => l.length
  | .appm m => m.length

/-- `worker_dict[k]` expected to be a per-application stage map; a
worker-global series there would make the subsequent subscripting a
Python `TypeError`-class failure (shape mismatch). -/
def dGetApp (d : List (String × WEntry)) (k : String) : Except PyErr (List (Int × WStage)) := do
  match ← dGet d k with
  | .appm m => pure m
  | .series _ => .error .typeError

/-- `worker_dict[k]` expected to be a worker-global series. -/
def dGetSeries (d : List (String × WEntry)) (k : String) : Except PyErr (List Rat) := do
  match ← dGet d k with
  | .series l => pure l
  | .appm _ => .error .typeError

/-- The mutable state threaded through the `load_worker_data` worker-log
loop (`worker_dict`, the current `app_id`, the current stage id `sid`). -/
structure WState : Type where
  worker_dict : List (String × WEntry) := [("cpu_real", .series []), ("time_cpu", .series [])]
  app_id : String := ""
  sid : Int := -1
deriving DecidableEq, Repr

/-- Allocation-created branch (`log.py` lines 211-222): on a new stage id,
installs the four fresh series; then appends the core count, a 0.0
real-speedup placeholder, the timestamp and a 0.0 progress placeholder. -/
def wCreated (st : WState) (toks : List String) (t4 : String) : Except PyErr WState :=
  if t4 = "Created" ∧ st.app_id ≠ "" then do
    let t8 ← pyGet toks 8
    let n ← pyInt t8
    let st1 ←
      if st.sid ≠ n then do
        let m ← dGetApp st.worker_dict st.app_id
        pure { st with sid := n,
                       worker_dict := dSet st.worker_dict st.app_id (.appm (dSet m n {})) }
      else pure st
    let m ← dGetApp st1.worker_dict st1.app_id
    let ws ← dGet m st1.sid
    let last ← pyGet toks (-1)
    let v ← pyFloat (removeChar '\n' last)
    let t1 ← pyGet toks 1
    let ws1 := { ws with cpu := ws.cpu ++ [v], sp_real := ws.sp_real ++ [0],
                         time := ws.time ++ [string_to_datetime t1], sp := ws.sp ++ [0] }
    pure { st1 with worker_dict := dSet st1.worker_dict st1.app_id (.appm (dSet m st1.sid ws1)) }
  else pure st

/-- Scale branch (`log.py` lines 223-231).  The source wraps
`worker_dict[next_app_id] = {}` in `try ... except KeyError`, but a dict
item assignment never raises `KeyError`, so the handler (which logs
"NOT FOUND BEFORE IN BENCHMARK LOGS" and would skip the switch) is
unreachable: the entry is always created and the context switched. -/
def wScaled (st : WState) (toks : List String) (t4 : String) : Except PyErr WState :=
  if t4 = "Scaled" then do
    let t10 ← pyGet toks 10
    if st.app_id = "" ∨ st.app_id ≠ t10 then
      pure { st with worker_dict := dSet st.worker_dict t10 (.appm []), app_id := t10 }
    else pure st
  else pure st

/-- Core-reallocation branch (`log.py` lines 233-235). -/
def wCore (st : WState) (toks : List String) (t4 : String) : Except PyErr WState :=
  if t4 = "CoreToAllocate:" then do
    let m ← dGetApp st.worker_dict st.app_id
    let ws ← dGet m st.sid
    let last ← pyGet toks (-1)
    let v ← pyFloat (removeChar '\n' last)
    pure { st with worker_dict := dSet st.worker_dict st.app_id
                     (.appm (dSet m st.sid { ws with cpu := ws.cpu ++ [v] })) }
  else pure st

/-- Real-speedup branch (`log.py` lines 236-238). -/
def wReal (st : WState) (toks : List String) (t4 : String) : Except PyErr WState :=
  if t4 = "Real:" then do
    let m ← dGetApp st.worker_dict st.app_id
    let ws ← dGet m st.sid
    let last ← pyGet toks (-1)
    let v ← pyFloat (removeChar '\n' last)
    pure { st with worker_dict := dSet st.worker_dict st.app_id
                     (.appm (dSet m st.sid { ws with sp_real := ws.sp_real ++ [v] })) }
  else pure st

/-- Progress branch (`log.py` lines 239-247): appends the timestamp, then
the progress sample — `abs(progress)/100` when the value is negative, the
raw value otherwise. -/
def wSP (st : WState) (toks : List String) (t4 : String) : Except PyErr WState :=
  if t4 = "SP" then do
    let m ← dGetApp st.worker_dict st.app_id
    let ws ← dGet m st.sid
    let t1 ← pyGet toks 1
    let ws1 := { ws with time := ws.time ++ [string_to_datetime t1] }
    let wd1 := dSet st.worker_dict st.app_id (.appm (dSet m st.sid ws1))
    let last ← pyGet toks (-1)
    let progress ← pyFloat (removeChar '\n' last)
    let ws2 := { ws1 with sp := ws1.sp ++ [if progress < 0 then |progress| / 100 else progress] }
    pure { st with worker_dict := dSet wd1 st.app_id (.appm (dSet (dSet m st.sid ws1) st.sid ws2)) }
  else pure st

/-- One iteration of the worker-log loop (`log.py` lines 208-247) on the
token list: require more than 3 tokens; the source then reads `line[4]`
in its first `if` before any event kind has matched, so the token at
index 4 is demanded unconditionally. -/
def stepWorkerT (st : WState) (toks : List String) : Except PyErr WState :=
  if 3 < toks.length then do
    let t4 ← pyGet toks 4
    let st1 ← wCreated st toks t4
    let st2 ← wScaled st1 toks t4
    if st2.app_id ≠ "" then do
      let st3 ← wCore st2 toks t4
      let st4 ← wReal st3 toks t4
      wSP st4 toks t4
    else pure st2
  else pure st

/-- One iteration of the worker-log loop on a raw line:
`line = line.split(" ")` and then the dispatch of `stepWorkerT`. -/
def stepWorker (st : WState) (line : String) : Except PyErr WState :=
  stepWorkerT st (pySplitSp line)

/-- The worker-log scan of `load_worker_data` (`log.py` lines 202-247). -/
def loadWorkerScan (lines : List String) : Except PyErr WState :=
  List.foldlM stepWorker {} lines

/-- The configuration fields `load_worker_data` consumes:
`config["Control"]["CoreVM"]` and `config["Aws"]["HyperThreading"]`. -/
structure Config : Type where
  CoreVM : Rat
  HyperThreading : Bool

/-- One iteration of the telemetry loop (`log.py` lines 250-262) on the
fields split on four spaces: skip header/blank/average lines, append the
parsed time-of-day to `time_cpu` and the normalized utilization to
`cpu_real` (`rawPercent * CoreVM * 2 / 100` under hyperthreading, without
the factor 2 otherwise, rounded to two decimal digits). -/
def stepCpuT (config : Config) (wd : List (String × WEntry)) (fs : List String) :
    Except PyErr (List (String × WEntry)) := do
  let f0 ← pyGet fs 0
  if ¬("Linux" ∈ pySplitSp f0 ∨ "\n" ∈ pySplitSp f0) then do
    let f1 ← pyGet fs 1
    if f1 ≠ " CPU" ∧ f0 ≠ "Average:" then do
      let tl ← dGetSeries wd "time_cpu"
      let t ← pyStrptime f0
      let f2 ← pyGet fs 2
      let raw ← pyFloat f2
      let cl ← dGetSeries (dSet wd "time_cpu" (.series (tl ++ [t]))) "cpu_real"
      pure (dSet (dSet wd "time_cpu" (.series (tl ++ [t]))) "cpu_real" (.series (cl ++
        [if config.HyperThreading then round2 (raw * config.CoreVM * 2 / 100)
         else round2 (raw * config.CoreVM / 100)])))
    else pure wd
  else pure wd

/-- One iteration of the telemetry loop on a raw line:
`line = line.split("    ")` and then the dispatch of `stepCpuT`. -/
def stepCpu (config : Config) (wd : List (String × WEntry)) (line : String) :
    Except PyErr (List (String × WEntry)) :=
  stepCpuT config wd (pySplit4 line)

/-- `load_worker_data` (`log.py` lines 191-268): worker-log scan, then the
telemetry merge, then the final pruning pass that deletes every top-level
entry whose value has length 0. -/
def load_worker_data (wlog clog : List String) (config : Config) :
    Except PyErr (List (String × WEntry)) := do
  let st ← loadWorkerScan wlog
  let wd ← List.foldlM (stepCpu config) st.worker_dict clog
  pure (wd.filter (fun kv => decide (0 < pyLen kv.2)))

/-- The plot-series invariant of the spec: finishes never outpace starts,
and starts never outpace deadline tracking by more than one. -/
def plotInv (p : PlotRec) : Prop :=
  p.finishTimeStages.length ≤ p.startTimeStages.length ∧
    p.startTimeStages.length ≤ p.dealineTimeStages.length + 1

instance (p : PlotRec) : Decidable (plotInv p) := by
  unfold plotInv; infer_instance

/-- The invariant over every application of the plot dictionary. -/
def plotInvAll (st : AppState) : Prop :=
  ∀ pr ∈ st.dict_to_plot, plotInv pr.2

/-- A registration line for `"app-1"` (coordinator log). -/
def regLine1 : String :=
  "a 00:00:01 INFO StandaloneSchedulerBackend: Connected to Spark cluster with app ID app-1\n"

/-- A controller hand-off line whose last token is `"app-2"`. -/
def handoffLine2 : String :=
  "a 00:00:05 INFO ControllerJob: SEND NEEDED heartbeat to app-2\n"

/-- A task-finished line whose stage token (index 9) is `"7.0"`, a stage
that no submission event ever initialized. -/
def badTaskLine : String :=
  "a 00:00:02 INFO TaskSetManager: Finished task 0.0 in stage 7.0 (TID 0) in 12 ms\n"

/-- The end-to-end synthetic coordinator log of the spec: one registration
for `"app-1"`, one submission of stage 0 with 10 tasks, ten task-finished
lines, one stage-finished line. -/
def appTestLog : List String :=
  [ regLine1,
    "a 00:00:02 INFO DAGScheduler: Submitting 10 missing tasks from ResultStage 0 (MapPartitionsRDD)\n",
    "a 00:00:03 INFO TaskSetManager: Finished task 0.0 in stage 0.0 (TID 0) in 12 ms\n",
    "a 00:00:04 INFO TaskSetManager: Finished task 1.0 in stage 0.0 (TID 1) in 12 ms\n",
    "a 00:00:05 INFO TaskSetManager: Finished task 2.0 in stage 0.0 (TID 2) in 12 ms\n",
    "a 00:00:06 INFO TaskSetManager: Finished task 3.0 in stage 0.0 (TID 3) in 12 ms\n",
    "a 00:00:07 INFO TaskSetManager: Finished task 4.0 in stage 0.0 (TID 4) in 12 ms\n",
    "a 00:00:08 INFO TaskSetManager: Finished task 5.0 in stage 0.0 (TID 5) in 12 ms\n",
    "a 00:00:09 INFO TaskSetManager: Finished task 6.0 in stage 0.0 (TID 6) in 12 ms\n",
    "a 00:00:10 INFO TaskSetManager: Finished task 7.0 in stage 0.0 (TID 7) in 12 ms\n",
    "a 00:00:11 INFO TaskSetManager: Finished task 8.0 in stage 0.0 (TID 8) in 12 ms\n",
    "a 00:00:12 INFO TaskSetManager: Finished task 9.0 in stage 0.0 (TID 9) in 12 ms\n",
    "a 00:00:20 INFO DAGScheduler: ResultStage 0 (count) finished in 17.406 s\n" ]

/-- A coordinator log for `"app-2"` that registers it, submits stage 0,
records a controller INIT for it (deadline 1000 ms), then hands off to
`"app-1"`: afterwards `"app-2"` has non-empty plot series. -/
def c6PrefixLog : List String :=
  [ "a 00:00:01 INFO StandaloneSchedulerBackend: Connected to Spark cluster with app ID app-2\n",
    "a 00:00:02 INFO DAGScheduler: Submitting 10 missing tasks from ResultStage 0 (MapPartitionsRDD)\n",
    "a 00:00:03 INFO ControllerJob: x INIT c d e f g h 0, i j k 1000, end\n",
    "a 00:00:04 INFO ControllerJob: SEND NEEDED heartbeat to app-1\n" ]

/-- `c6PrefixLog` followed by a hand-off back to `"app-2"`. -/
def c6FullLog : List String :=
  c6PrefixLog ++ ["a 00:00:05 INFO ControllerJob: SEND NEEDED heartbeat to app-2\n"]

/-- A worker-log scale line naming `"app-9"` (token index 10), an
application never seen before in the log. -/
def scaledLine : String :=
  "a 00:00:01 INFO xSparkController: Scaled executors for app with id app-9 now\n"

/-- A worker-log progress line with raw value `-45.0`. -/
def spLineNeg : String :=
  "a 00:00:03 INFO xSparkController: SP received for the stage now at -45.0\n"

/-- A worker-log progress line with raw value `0.7`. -/
def spLinePos : String :=
  "a 00:00:04 INFO xSparkController: SP received for the stage now at 0.7\n"

/-- A telemetry data line: time-of-day `12:00:01 AM`, utilization 50%. -/
def cpuLine : String :=
  "12:00:01 AM    all    50.00    0.00    17.31    0.17\n"

/-- The initial `worker_dict` (the two worker-global series). -/
def wdInit : List (String × WEntry) :=
  [("cpu_real", .series []), ("time_cpu", .series [])]

/-- A worker-scan state in which application `"app-9"` is current with an
initialized (still empty) record for stage 0. -/
def wStSP : WState :=
  { worker_dict := [("cpu_real", .series []), ("time_cpu", .series []),
                    ("app-9", .appm [(0, {})])],
    app_id := "app-9", sid := 0 }

theorem ok_bind {α β : Type} (a : α) (f : α → Except PyErr β) :
    (Except.ok a >>= f) = f a := rfl

theorem error_bind {α β : Type} (e : PyErr) (f : α → Except PyErr β) :
    ((Except.error e : Except PyErr α) >>= f) = Except.error e := rfl

theorem pure_eq_ok {α : Type} (a : α) : (pure a : Except PyErr α) = Except.ok a := rfl

theorem bind_eq_ok {α β : Type} {x : Except PyErr α} {f : α → Except PyErr β} {b : β} :
    (x >>= f) = .ok b ↔ ∃ a, x = .ok a ∧ f a = .ok b := by
  cases x with
  | ok a =>
    rw [ok_bind]
    constructor
    · intro h; exact ⟨a, rfl, h⟩
    · rintro ⟨a', ha, hf⟩; cases ha; exact hf
  | error e =>
    rw [error_bind]
    constructor
    · intro h; cases h
    · rintro ⟨a', ha, _⟩; cases ha

theorem map_eq_ok {α β : Type} {x : Except PyErr α} {f : α → β} {b : β} :
    x.map f = .ok b ↔ ∃ a, x = .ok a ∧ f a = b := by
  cases x with
  | ok a =>
    constructor
    · intro h; cases h; exact ⟨a, rfl, rfl⟩
    · rintro ⟨a', ha, hf⟩; cases ha; rw [← hf]; rfl
  | error e =>
    constructor
    · intro h; cases h
    · rintro ⟨a', ha, _⟩; cases ha

theorem dGet_cons {K V : Type} [DecidableEq K] (k0 : K) (v0 : V) (t : List (K × V)) (k : K) :
    dGet ((k0, v0) :: t) k = if k0 = k then .ok v0 else dGet t k := rfl

theorem dSet_cons {K V : Type} [DecidableEq K] (k0 : K) (v0 : V) (t : List (K × V)) (k : K) (v : V) :
    dSet ((k0, v0) :: t) k v = if k0 = k then (k, v) :: t else (k0, v0) :: dSet t k v := rfl

theorem dGet_mem {K V : Type} [DecidableEq K] {d : List (K × V)} {k : K} {v : V}
    (h : dGet d k = .ok v) : (k, v) ∈ d := by
  induction d with
  | nil => cases h
  | cons hd t ih =>
    obtain ⟨k', v'⟩ := hd
    rw [dGet_cons] at h
    by_cases hk : k' = k
    · rw [if_pos hk] at h
      cases h
      subst hk
      exact List.mem_cons_self _ _
    · rw [if_neg hk] at h
      exact List.mem_cons_of_mem _ (ih h)

theorem mem_dSet {K V : Type} [DecidableEq K] {d : List (K × V)} {k : K} {v : V} {p : K × V}
    (h : p ∈ dSet d k v) : p = (k, v) ∨ p ∈ d := by
  induction d with
  | nil =>
    unfold dSet at h
    rcases List.mem_singleton.mp h with h'
    exact Or.inl h'
  | cons hd t ih =>
    obtain ⟨k', v'⟩ := hd
    unfold dSet at h
    by_cases hk : k' = k
    · rw [if_pos hk] at h
      rcases List.mem_cons.mp h with h' | h'
      · exact Or.inl h'
      · exact Or.inr (List.mem_cons_of_mem _ h')
    · rw [if_neg hk] at h
      rcases List.mem_cons.mp h with h' | h'
      · exact Or.inr (h' ▸ List.mem_cons_self _ _)
      · rcases ih h' with h'' | h''
        · exact Or.inl h''
        · exact Or.inr (List.mem_cons_of_mem _ h'')

theorem dGet_dSet_self {K V : Type} [DecidableEq K] (d : List (K × V)) (k : K) (v : V) :
    dGet (dSet d k v) k = .ok v := by
  induction d with
  | nil => simp [dSet, dGet]
  | cons hd t ih =>
    obtain ⟨k', v'⟩ := hd
    unfold dSet
    by_cases hk : k' = k
    · rw [if_pos hk]; simp [dGet]
    · rw [if_neg hk]; unfold dGet; rw [if_neg hk]; exact ih

theorem dGet_dSet_ne {K V : Type} [DecidableEq K] (d : List (K × V)) (k k' : K) (v : V)
    (h : k ≠ k') : dGet (dSet d k v) k' = dGet d k' := by
  induction d with
  | nil => simp [dSet, dGet, if_neg h]
  | cons hd t ih =>
    obtain ⟨k0, v0⟩ := hd
    unfold dSet
    by_cases hk : k0 = k
    · rw [if_pos hk]
      unfold dGet
      rw [if_neg h, if_neg (hk ▸ h)]
    · rw [if_neg hk]
      unfold dGet
      by_cases hk' : k0 = k'
      · rw [if_pos hk', if_pos hk']
      · rw [if_neg hk', if_neg hk']; exact ih

theorem dSet_dSet {K V : Type} [DecidableEq K] (d : List (K × V)) (k : K) (v v' : V) :
    dSet (dSet d k v) k v' = dSet d k v' := by
  induction d with
  | nil => simp [dSet]
  | cons hd t ih =>
    obtain ⟨k0, v0⟩ := hd
    rw [dSet_cons, dSet_cons]
    by_cases hk : k0 = k
    · rw [if_pos hk, if_pos hk, dSet_cons, if_pos rfl]
    · rw [if_neg hk, if_neg hk, dSet_cons, if_neg hk, ih]

theorem foldlM_except_inv {σ α : Type} {P : σ → Prop} {step : σ → α → Except PyErr σ}
    (hstep : ∀ s a s', P s → step s a = .ok s' → P s') :
    ∀ (l : List α) (s s' : σ), P s → List.foldlM step s l = .ok s' → P s' := by
  intro l
  induction l with
  | nil =>
    intro s s' hP h
    cases h
    exact hP
  | cons a t ih =>
    intro s s' hP h
    have h' : (step s a >>= fun s1 => List.foldlM step s1 t) = .ok s' := h
    rcases bind_eq_ok.mp h' with ⟨s1, h1, h2⟩
    exact ih s1 s' (hstep s a s1 hP h1) h2

theorem taskFin_plot {st : AppState} {toks : List String} {st' : AppState}
    (h : taskFin st toks = .ok st') : st'.dict_to_plot = st.dict_to_plot := by
  unfold taskFin at h
  rcases map_eq_ok.mp h with ⟨ai, _, hst⟩
  rw [← hst]

theorem submitBranch_plot {st : AppState} {toks : List String} {st' : AppState}
    (h : submitBranch st toks = .ok st') : st'.dict_to_plot = st.dict_to_plot := by
  unfold submitBranch at h
  rcases map_eq_ok.mp h with ⟨ai, _, hst⟩
  rw [← hst]

theorem regBranch_inv {st : AppState} {toks : List String} {st' : AppState}
    (hP : plotInvAll st) (h : regBranch st toks = .ok st') : plotInvAll st' := by
  unfold regBranch at h
  rcases bind_eq_ok.mp h with ⟨last, _, h2⟩
  cases h2
  intro pr hpr
  rcases mem_dSet hpr with h' | h'
  · rw [h']
    exact (by decide : plotInv {})
  · exact hP pr h'

theorem handoff_inv {st : AppState} {toks : List String} {st' : AppState}
    (hP : plotInvAll st) (h : handoff st toks = .ok st') : plotInvAll st' := by
  unfold handoff at h
  rcases bind_eq_ok.mp h with ⟨last, _, h2⟩
  split at h2
  · cases h2
    intro pr hpr
    rcases mem_dSet hpr with h' | h'
    · rw [h']
      exact (by decide : plotInv {})
    · exact hP pr h'
  · cases h2
    exact hP

theorem stageFin_inv {st : AppState} {toks : List String} {st' : AppState}
    (hP : plotInvAll st) (h : stageFin st toks = .ok st') : plotInvAll st' := by
  unfold stageFin at h
  split at h
  · cases h; exact hP
  · rcases bind_eq_ok.mp h with ⟨t5, _, h⟩
    rcases bind_eq_ok.mp h with ⟨sid, _, h⟩
    rcases bind_eq_ok.mp h with ⟨t1, _, h⟩
    rcases bind_eq_ok.mp h with ⟨am, _, h⟩
    rcases bind_eq_ok.mp h with ⟨sr, _, h⟩
    rcases bind_eq_ok.mp h with ⟨p, hp, h⟩
    split at h
    case isTrue hguard =>
      cases h
      intro pr hpr
      rcases mem_dSet hpr with h' | h'
      · subst h'
        have hinv : plotInv p := hP _ (dGet_mem hp)
        show plotInv { p with finishTimeStages := p.finishTimeStages ++ [string_to_datetime t1] }
        unfold plotInv at hinv ⊢
        simp only [List.length_append, List.length_singleton]
        omega
      · exact hP pr h'
    case isFalse =>
      cases h
      exact hP

theorem ctrlInit_inv {st : AppState} {toks : List String} {st' : AppState}
    (hP : plotInvAll st) (h : ctrlInit st toks = .ok st') : plotInvAll st' := by
  unfold ctrlInit at h
  rcases bind_eq_ok.mp h with ⟨p, hp, h⟩
  split at h
  case isTrue hguard =>
    rcases bind_eq_ok.mp h with ⟨t12, _, h⟩
    rcases bind_eq_ok.mp h with ⟨sid, _, h⟩
    rcases bind_eq_ok.mp h with ⟨t1, _, h⟩
    rcases bind_eq_ok.mp h with ⟨am, _, h⟩
    rcases bind_eq_ok.mp h with ⟨sr, _, h⟩
    rcases bind_eq_ok.mp h with ⟨t16, _, h⟩
    rcases bind_eq_ok.mp h with ⟨dms, _, h⟩
    rcases bind_eq_ok.mp h with ⟨lastStart, _, h⟩
    cases h
    intro pr hpr
    rcases mem_dSet hpr with h' | h'
    · subst h'
      have hinv : plotInv p := hP _ (dGet_mem hp)
      show plotInv { p with startTimeStages := p.startTimeStages ++ [string_to_datetime t1],
                            dealineTimeStages := p.dealineTimeStages ++ [lastStart + dms] }
      unfold plotInv at hinv ⊢
      simp only [List.length_append, List.length_singleton]
      omega
    · exact hP pr h'
  case isFalse =>
    cases h
    exact hP

theorem dagFin_inv {st : AppState} {toks : List String} {st' : AppState}
    (hP : plotInvAll st) (h : dagFin st toks = .ok st') : plotInvAll st' := by
  unfold dagFin at h
  rcases bind_eq_ok.mp h with ⟨tm4, _, h⟩
  split at h
  · exact stageFin_inv hP h
  · cases h; exact hP

theorem stepApp_inv {st : AppState} {line : String} {st' : AppState}
    (hP : plotInvAll st) (h : stepApp st line = .ok st') : plotInvAll st' := by
  unfold stepApp stepAppT at h
  split at h
  case isFalse =>
    cases h; exact hP
  case isTrue =>
    rcases bind_eq_ok.mp h with ⟨t3, _, h⟩
    split at h
    case isTrue =>
      rcases bind_eq_ok.mp h with ⟨t4, _, h⟩
      split at h
      case isTrue =>
        have hplot := taskFin_plot h
        intro pr hpr
        rw [hplot] at hpr
        exact hP pr hpr
      case isFalse => cases h; exact hP
    case isFalse =>
      split at h
      case isTrue =>
        rcases bind_eq_ok.mp h with ⟨t4, _, h⟩
        split at h
        case isTrue => exact regBranch_inv hP h
        case isFalse => cases h; exact hP
      case isFalse =>
        split at h
        case isTrue =>
          rcases bind_eq_ok.mp h with ⟨t4, _, h⟩
          split at h
          case isTrue =>
            rcases bind_eq_ok.mp h with ⟨t6, _, h⟩
            split at h
            case isTrue =>
              have hplot := submitBranch_plot h
              intro pr hpr
              rw [hplot] at hpr
              exact hP pr hpr
            case isFalse => exact dagFin_inv hP h
          case isFalse => exact dagFin_inv hP h
        case isFalse =>
          split at h
          case isTrue =>
            rcases bind_eq_ok.mp h with ⟨t5, _, h⟩
            split at h
            case isTrue => exact ctrlInit_inv hP h
            case isFalse =>
              split at h
              case isTrue =>
                rcases bind_eq_ok.mp h with ⟨t4, _, h⟩
                split at h
                case isTrue => exact handoff_inv hP h
                case isFalse => cases h; exact hP
              case isFalse => cases h; exact hP
          case isFalse => cases h; exact hP

theorem dGetApp_eq_ok {d : List (String × WEntry)} {k : String} {m : List (Int × WStage)}
    (h : dGet d k = .ok (.appm m)) : dGetApp d k = .ok m := by
  unfold dGetApp
  rw [h, ok_bind]
  rfl

theorem dGetSeries_eq_ok {d : List (String × WEntry)} {k : String} {l : List Rat}
    (h : dGet d k = .ok (.series l)) : dGetSeries d k = .ok l := by
  unfold dGetSeries
  rw [h, ok_bind]
  rfl

/-- Claim C1, counterexample: `load_app_data` does not return the
`PlotSeries` to its caller — no function of the returned value can
recover `dict_to_plot`, because two inputs exist on which the return
values coincide while the accumulated plot dictionaries differ (the
second input extends the first with a controller hand-off line, which
changes only `dict_to_plot` and `app_id`). -/
theorem C1_cex : ¬ ∃ f : AppInfo → List (String × PlotRec),
    ∀ (lines : List String) (ai : AppInfo) (plot : List (String × PlotRec)) (aid : String),
      loadAppDataState lines = .ok ⟨ai, plot, aid⟩ → f ai = plot := by
  rintro ⟨f, hf⟩
  have h1 := hf [regLine1] [("app-1", [])] [("app-1", {})] "app-1" (by decide)
  have h2 := hf [regLine1, handoffLine2] [("app-1", [])]
    [("app-1", {}), ("app-2", {})] "app-2" (by decide)
  rw [h1] at h2
  exact absurd h2 (by decide)

/-- Claim C1, amended: `load_app_data` computes both structures during the
pass but returns only the `ApplicationRecord` (`app_info`); the
`PlotSeries` (`dict_to_plot`) never reaches the caller — there are inputs
with equal returned values and different plot series. -/
theorem C1_only_app_info_returned : ∃ l1 l2 : List String,
    load_app_data l1 = load_app_data l2 ∧
      (loadAppDataState l1).map AppState.dict_to_plot ≠
        (loadAppDataState l2).map AppState.dict_to_plot :=
  ⟨[regLine1], [regLine1, handoffLine2], by decide, by decide⟩

/-- Claim C2, counterexample: a task-finished line referencing a
not-yet-initialized stage (stage 7 was never submitted) aborts the whole
`load_app_data` pass with a `KeyError` instead of being skipped: the
`except` handler performs the same failing stage lookup unguarded. -/
theorem C2_cex : loadAppDataState [regLine1, badTaskLine] = .error .keyError := by decide

/-- Claim C2, amended: a malformed line is not in general skipped — in the
task-finished branch, whenever the stage lookup raises `KeyError`
(not-yet-initialized stage), the `except` handler re-raises and the scan
step returns the error, aborting the pass. -/
theorem C2_missing_stage_aborts (st : AppState) (line t9 : String)
    (am : List (Int × StageRec)) (f : Rat)
    (hlen : 3 < (pySplitSp line).length)
    (h3 : pyGet (pySplitSp line) 3 = .ok "TaskSetManager:")
    (h4 : pyGet (pySplitSp line) 4 = .ok "Finished")
    (ham : dGet st.app_info st.app_id = .ok am)
    (h9 : pyGet (pySplitSp line) 9 = .ok t9)
    (hf : pyFloat t9 = .ok f)
    (hsid : dGet am (pyTrunc f) = .error .keyError) :
    stepApp st line = .error .keyError := by
  have hA : taskFinTry st.app_info st.app_id (pySplitSp line) = .error .keyError := by
    unfold taskFinTry
    rw [ham, ok_bind, h9, ok_bind, hf, ok_bind, hsid, error_bind]
  have hB : taskFinExc st.app_info st.app_id (pySplitSp line) = .error .keyError := by
    unfold taskFinExc
    rw [ham, ok_bind, h9, ok_bind, hf, ok_bind, hsid, error_bind]
  unfold stepApp stepAppT
  rw [if_pos hlen, h3, ok_bind, if_pos rfl, h4, ok_bind, if_pos rfl]
  unfold taskFin
  rw [hA, hB]
  rfl

/-- Claim C2, witness for the amended theorem: the concrete bad line on
the concrete state reached after registering `"app-1"`. -/
theorem C2_witness :
    stepApp ⟨[("app-1", [])], [("app-1", {})], "app-1"⟩ badTaskLine = .error .keyError :=
  C2_missing_stage_aborts ⟨[("app-1", [])], [("app-1", {})], "app-1"⟩ badTaskLine "7.0" [] 7
    (by decide) (by decide) (by decide) (by decide) (by decide) (by decide) (by decide)

/-- Claim C3: after any successful `load_app_data` scan (and hence after
every successfully processed prefix, each prefix being itself an input),
every application in the plot dictionary satisfies
`len(finishTimeStages) ≤ len(startTimeStages) ≤ len(dealineTimeStages) + 1`. -/
theorem C3_plot_invariant (lines : List String) (st : AppState)
    (h : loadAppDataState lines = .ok st) : plotInvAll st := by
  have hinit : plotInvAll {} := by
    intro pr hpr
    cases hpr
  exact foldlM_except_inv (fun s a s' hs hs' => stepApp_inv hs hs') lines {} st hinit h

/-- Claim C3, witness: the invariant instance obtained from the concrete
four-line log `c6PrefixLog` for application `"app-2"`. -/
theorem C3_witness : plotInv
    { dealineTimeStages := [string_to_datetime "00:00:03" + 1000],
      startTimeStages := [string_to_datetime "00:00:03"], finishTimeStages := [] } :=
  C3_plot_invariant c6PrefixLog
    ⟨[("app-2", [(0, { tasks := some 10, start := some (string_to_datetime "00:00:03"),
                       deadline := some (string_to_datetime "00:00:03" + 1000) })])],
     [("app-2", { dealineTimeStages := [string_to_datetime "00:00:03" + 1000],
                  startTimeStages := [string_to_datetime "00:00:03"], finishTimeStages := [] }),
      ("app-1", {})],
     "app-1"⟩ (by decide)
    ("app-2", { dealineTimeStages := [string_to_datetime "00:00:03" + 1000],
                startTimeStages := [string_to_datetime "00:00:03"], finishTimeStages := [] })
    (by decide)

/-- Claim C4, counterexample: on the synthetic end-to-end log,
`finishTimeStages` for `"app-1"` is not the one-element list of the
stage-finished timestamp — no controller INIT ever recorded a start, so
the guard `len(start) > len(finish)` blocks the append. -/
theorem C4_cex : (loadAppDataState appTestLog).map
      (fun st => (dGet st.dict_to_plot "app-1").map PlotRec.finishTimeStages) ≠
    .ok (.ok [string_to_datetime "00:00:20"]) := by decide

/-- Claim C4, amended: the synthetic log yields
`ApplicationRecord["app-1"][0]` with `taskCount` 10, ten task timestamps
and `end` equal to the stage-finished line's timestamp, but
`PlotSeries["app-1"].finishTimeStages` is empty (no start was recorded,
so the finish-append guard fails). -/
theorem C4_scenario :
    load_app_data appTestLog = .ok [("app-1",
      [(0, { tasks := some 10,
             end_ := some (string_to_datetime "00:00:20"),
             tasktimestamps := some [string_to_datetime "00:00:03", string_to_datetime "00:00:04",
               string_to_datetime "00:00:05", string_to_datetime "00:00:06",
               string_to_datetime "00:00:07", string_to_datetime "00:00:08",
               string_to_datetime "00:00:09", string_to_datetime "00:00:10",
               string_to_datetime "00:00:11", string_to_datetime "00:00:12"] })])] ∧
    (loadAppDataState appTestLog).map
      (fun st => (dGet st.dict_to_plot "app-1").map PlotRec.finishTimeStages) = .ok (.ok []) :=
  ⟨by decide, by decide⟩

/-- Claim C5: a scale event naming the never-before-seen application
`"app-9"` does create an (empty) entry for it in `worker_dict` and does
switch the current-application context — the `except KeyError` handler
around the dict assignment is unreachable, so nothing is skipped. -/
theorem C5_scaled_creates_entry :
    loadWorkerScan [scaledLine] = .ok
      { worker_dict := [("cpu_real", .series []), ("time_cpu", .series []), ("app-9", .appm [])],
        app_id := "app-9", sid := -1 } := by decide

/-- Claim C6, counterexample: after `c6PrefixLog`, application `"app-2"`
has a non-empty `startTimeStages`; the subsequent hand-off back to
`"app-2"` (in `c6FullLog`) resets its plot series to empty — the existing
series are not left unchanged. -/
theorem C6_cex :
    (loadAppDataState c6PrefixLog).map
        (fun st => (dGet st.dict_to_plot "app-2").map PlotRec.startTimeStages) =
      .ok (.ok [string_to_datetime "00:00:03"]) ∧
    (loadAppDataState c6FullLog).map
        (fun st => (dGet st.dict_to_plot "app-2").map PlotRec.startTimeStages) =
      .ok (.ok []) :=
  ⟨by decide, by decide⟩

/-- Claim C6, amended: a hand-off to a different application id switches
the context and unconditionally installs fresh empty plot series for the
target — also when series for it already exist. -/
theorem C6_handoff_reinitializes (st : AppState) (line lastTok : String)
    (hlen : 3 < (pySplitSp line).length)
    (h3 : pyGet (pySplitSp line) 3 = .ok "ControllerJob:")
    (h5 : pyGet (pySplitSp line) 5 = .ok "NEEDED")
    (h4 : pyGet (pySplitSp line) 4 = .ok "SEND")
    (hlast : pyGet (pySplitSp line) (-1) = .ok lastTok)
    (hne : st.app_id ≠ removeChar '\n' lastTok) :
    stepApp st line = .ok
      { st with
        app_id := removeChar '\n' lastTok,
        dict_to_plot := dSet st.dict_to_plot (removeChar '\n' lastTok) {} } := by
  unfold stepApp stepAppT
  rw [if_pos hlen, h3, ok_bind,
      if_neg (by decide : ¬("ControllerJob:" = "TaskSetManager:")),
      if_neg (by decide : ¬("ControllerJob:" = "StandaloneSchedulerBackend:")),
      if_neg (by decide : ¬("ControllerJob:" = "DAGScheduler:")),
      if_pos (rfl : "ControllerJob:" = "ControllerJob:"),
      h5, ok_bind,
      if_neg (by decide : ¬("NEEDED" = "INIT")),
      if_pos (rfl : "NEEDED" = "NEEDED"),
      h4, ok_bind,
      if_pos (rfl : "SEND" = "SEND")]
  unfold handoff
  rw [hlast, ok_bind, if_pos hne]
  rfl

/-- Claim C6, witness: the hand-off line with target `"app-2"` applied to
the state reached after registering `"app-1"`. -/
theorem C6_witness :
    stepApp ⟨[("app-1", [])], [("app-1", {})], "app-1"⟩ handoffLine2 =
      .ok ⟨[("app-1", [])], [("app-1", {}), ("app-2", {})], "app-2"⟩ := by
  have h := C6_handoff_reinitializes ⟨[("app-1", [])], [("app-1", {})], "app-1"⟩
    handoffLine2 "app-2\n" (by decide) (by decide) (by decide) (by decide) (by decide) (by decide)
  rw [h]
  decide

/-- Claim C7: a progress event with raw value `v` stores
`abs(v)/100` when `v` is negative and `v` unchanged otherwise (the
timestamp is appended alongside). -/
theorem C7_progress_normalization (st : WState) (line lastTok t1 : String)
    (m : List (Int × WStage)) (ws : WStage) (v : Rat)
    (hlen : 3 < (pySplitSp line).length)
    (h4 : pyGet (pySplitSp line) 4 = .ok "SP")
    (hid : st.app_id ≠ "")
    (hm : dGet st.worker_dict st.app_id = .ok (.appm m))
    (hws : dGet m st.sid = .ok ws)
    (ht1 : pyGet (pySplitSp line) 1 = .ok t1)
    (hlast : pyGet (pySplitSp line) (-1) = .ok lastTok)
    (hv : pyFloat (removeChar '\n' lastTok) = .ok v) :
    stepWorker st line = .ok
      { st with
        worker_dict := dSet st.worker_dict st.app_id
          (.appm (dSet m st.sid
            { ws with
              time := ws.time ++ [string_to_datetime t1],
              sp := ws.sp ++ [if v < 0 then |v| / 100 else v] })) } := by
  have hwc : wCreated st (pySplitSp line) "SP" = .ok st := by
    unfold wCreated
    rw [if_neg (by intro hc; exact absurd hc.1 (by decide))]
    rfl
  have hwsc : wScaled st (pySplitSp line) "SP" = .ok st := by
    unfold wScaled
    rw [if_neg (by decide : ¬("SP" = "Scaled"))]
    rfl
  have hcore : wCore st (pySplitSp line) "SP" = .ok st := by
    unfold wCore
    rw [if_neg (by decide : ¬("SP" = "CoreToAllocate:"))]
    rfl
  have hreal : wReal st (pySplitSp line) "SP" = .ok st := by
    unfold wReal
    rw [if_neg (by decide : ¬("SP" = "Real:"))]
    rfl
  unfold stepWorker stepWorkerT
  rw [if_pos hlen, h4, ok_bind, hwc, ok_bind, hwsc, ok_bind, if_pos hid,
      hcore, ok_bind, hreal, ok_bind]
  unfold wSP
  rw [if_pos (rfl : "SP" = "SP"), dGetApp_eq_ok hm, ok_bind, hws, ok_bind, ht1, ok_bind,
      hlast, ok_bind, hv, ok_bind]
  simp only [dSet_dSet]
  rfl

/-- Claim C7, witness: the two spec instances — input `-45.0` stores
`0.45 = 9/20`, input `0.7` stores `7/10` unchanged. -/
theorem C7_witness :
    stepWorker wStSP spLineNeg = .ok
      { worker_dict := [("cpu_real", .series []), ("time_cpu", .series []),
          ("app-9", .appm [(0, { cpu := [], time := [string_to_datetime "00:00:03"],
                                 sp_real := [], sp := [9 / 20] })])],
        app_id := "app-9", sid := 0 } ∧
    stepWorker wStSP spLinePos = .ok
      { worker_dict := [("cpu_real", .series []), ("time_cpu", .series []),
          ("app-9", .appm [(0, { cpu := [], time := [string_to_datetime "00:00:04"],
                                 sp_real := [], sp := [7 / 10] })])],
        app_id := "app-9", sid := 0 } := by
  constructor
  · have h := C7_progress_normalization wStSP spLineNeg "-45.0\n" "00:00:03" [(0, {})] {} (-45)
      (by decide) (by decide) (by decide) (by decide) (by decide) (by decide) (by decide) (by decide)
    rw [h]
    decide
  · have h := C7_progress_normalization wStSP spLinePos "0.7\n" "00:00:04" [(0, {})] {} (7 / 10)
      (by decide) (by decide) (by decide) (by decide) (by decide) (by decide) (by decide) (by decide)
    rw [h]
    decide

/-- Claim C8: a telemetry data line stores
`round2(rawPercent * CoreVM * threadingFactor / 100)` in `cpu_real`,
where the threading factor is 2 under hyperthreading and 1 otherwise
(and the parsed time-of-day is appended to `time_cpu`). -/
theorem C8_cpu_normalization (config : Config) (wd : List (String × WEntry))
    (line f0 f1 f2 : String) (t : Time) (raw : Rat) (tl cl : List Rat)
    (h0 : pyGet (pySplit4 line) 0 = .ok f0)
    (hhdr : ¬("Linux" ∈ pySplitSp f0 ∨ "\n" ∈ pySplitSp f0))
    (h1 : pyGet (pySplit4 line) 1 = .ok f1)
    (hnc : f1 ≠ " CPU")
    (hna : f0 ≠ "Average:")
    (htl : dGet wd "time_cpu" = .ok (.series tl))
    (ht : pyStrptime f0 = .ok t)
    (h2 : pyGet (pySplit4 line) 2 = .ok f2)
    (hraw : pyFloat f2 = .ok raw)
    (hcl : dGet wd "cpu_real" = .ok (.series cl)) :
    stepCpu config wd line = .ok (dSet (dSet wd "time_cpu" (.series (tl ++ [t]))) "cpu_real"
      (.series (cl ++
        [round2 (raw * config.CoreVM * (if config.HyperThreading then 2 else 1) / 100)]))) := by
  have hcl2 : dGet (dSet wd "time_cpu" (.series (tl ++ [t]))) "cpu_real" = .ok (.series cl) := by
    rw [dGet_dSet_ne _ _ _ _ (by decide)]
    exact hcl
  unfold stepCpu stepCpuT
  rw [h0, ok_bind, if_pos hhdr, h1, ok_bind, if_pos (And.intro hnc hna),
      dGetSeries_eq_ok htl, ok_bind, ht, ok_bind, h2, ok_bind, hraw, ok_bind,
      dGetSeries_eq_ok hcl2, ok_bind]
  rcases config with ⟨cv, hts⟩
  cases hts
  · simp only [if_neg (show ¬(false = true) by decide), mul_one]
    rfl
  · simp only [if_pos (show true = true from rfl)]
    rfl

/-- Claim C8, witness: `rawPercent = 50`, `CoreVM = 4` gives `2.00`
without hyperthreading and `4.00` with it. -/
theorem C8_witness :
    stepCpu ⟨4, false⟩ wdInit cpuLine =
      .ok [("cpu_real", .series [2]), ("time_cpu", .series [1000])] ∧
    stepCpu ⟨4, true⟩ wdInit cpuLine =
      .ok [("cpu_real", .series [4]), ("time_cpu", .series [1000])] := by
  constructor
  · have h := C8_cpu_normalization ⟨4, false⟩ wdInit cpuLine "12:00:01 AM" "all" "50.00" 1000 50 [] []
      (by decide) (by decide) (by decide) (by decide) (by decide) (by decide) (by decide)
      (by decide) (by decide) (by decide)
    rw [h]
    decide
  · have h := C8_cpu_normalization ⟨4, true⟩ wdInit cpuLine "12:00:01 AM" "all" "50.00" 1000 50 [] []
      (by decide) (by decide) (by decide) (by decide) (by decide) (by decide) (by decide)
      (by decide) (by decide) (by decide)
    rw [h]
    decide

/-- Claim C9: every top-level key of the dictionary returned by
`load_worker_data` maps to a non-empty container — the final pruning pass
keeps exactly the entries of positive length, so an application with no
accumulated stage entry is absent. -/
theorem C9_pruned_nonempty (wlog clog : List String) (config : Config)
    (d : List (String × WEntry)) (h : load_worker_data wlog clog config = .ok d) :
    ∀ kv ∈ d, 0 < pyLen kv.2 := by
  unfold load_worker_data at h
  rcases bind_eq_ok.mp h with ⟨st, _, h⟩
  rcases bind_eq_ok.mp h with ⟨wd, _, h⟩
  cases h
  intro kv hkv
  exact of_decide_eq_true (List.mem_filter.mp hkv).2

/-- Claim C9, witness: on a worker log containing only the scale event
for `"app-9"` and one telemetry line, the returned dictionary keeps only
the two non-empty global series (`"app-9"` is pruned), and the kept
`cpu_real` entry indeed has positive length. -/
theorem C9_witness : 0 < pyLen (WEntry.series [2]) :=
  C9_pruned_nonempty [scaledLine] [cpuLine] ⟨4, false⟩
    [("cpu_real", .series [2]), ("time_cpu", .series [1000])] (by decide)
    ("cpu_real", .series [2]) (by decide)

/-- Claim C10: any worker-log line that splits into exactly 4 tokens
passes the `len(line) > 3` gate and then the unconditional `line[4]` read
raises `IndexError`, aborting the scan from any state — the line is not
skipped. -/
theorem C10_four_token_line_aborts (st : WState) (line : String) (rest : List String)
    (h4 : (pySplitSp line).length = 4) :
    List.foldlM stepWorker st (line :: rest) = .error .indexError := by
  have hpg : pyGet (pySplitSp line) 4 = .error .indexError := by
    unfold pyGet
    rw [if_neg (by decide : ¬((4 : Int) < 0))]
    have hnone : (pySplitSp line).get? (4 : Int).toNat = none :=
      List.get?_eq_none.mpr (by omega)
    rw [hnone]
  have hstep : stepWorker st line = .error .indexError := by
    unfold stepWorker stepWorkerT
    rw [h4, if_pos (by norm_num : (3 : Nat) < 4), hpg, error_bind]
  show (stepWorker st line >>= fun s => List.foldlM stepWorker s rest) = .error .indexError
  rw [hstep, error_bind]

/-- Claim C10, witness: the concrete four-token line `"a b c d\n"` aborts
the scan from the initial state. -/
theorem C10_witness :
    List.foldlM stepWorker ({} : WState) ["a b c d\n"] = .error .indexError :=
  C10_four_token_line_aborts {} "a b c d\n" [] (by decide)
